import Mathlib

/-!
Verification of the Procurement Insights API request pipeline.

Shallow embedding of the repository sources:
  app/models.py       -- pydantic input and output models
  app/main.py         -- request handler and error mapping
  app/llm_service.py  -- prompt builder, response repair pipeline, sanitizer

Python strings are modelled as Lean `String` (a wrapper around `List Char`),
Python floats as `Rat` (the values exercised here are exact decimals),
Python dicts (parsed JSON objects) as ordered association lists, and
raising code as `Option`-valued functions (`none` = exception).
-/

namespace Procurement

/-! ### Python string primitives -/

/-- Default whitespace set of Python `str.strip` (ASCII part). -/
def isPySpace (c : Char) : Bool :=
  c = ' ' || c = '\t' || c = '\n' || c = '\x0d' || c = '\x0b' || c = '\x0c'

/-- Left trim, list level. -/
def ltrim (l : List Char) : List Char := l.dropWhile isPySpace

/-- Right trim, list level. -/
def rtrim (l : List Char) : List Char := (l.reverse.dropWhile isPySpace).reverse

/-- Python `str.strip()`, list level. -/
def pyStripL (l : List Char) : List Char := rtrim (ltrim l)

/-- Python `str.strip()`. -/
def pyStrip (s : String) : String := ⟨pyStripL s.data⟩

/-- Python `str.startswith(p)`. -/
def pyStartsWith (s p : String) : Bool := p.data.isPrefixOf s.data

/-- Python `str.endswith(p)`. -/
def pyEndsWith (s p : String) : Bool := p.data.isSuffixOf s.data

/-- Python slicing `s[n:]`. -/
def strDrop (s : String) (n : Nat) : String := ⟨s.data.drop n⟩

/-- Python slicing `s[:-n]` for `n ≤ len(s)`. -/
def strDropRight (s : String) (n : Nat) : String := ⟨s.data.take (s.data.length - n)⟩

/-- Python `s.count(c)` for a single-character needle. -/
def countChar (c : Char) (s : String) : Nat := s.data.count c

/-- Python `c * n` for a single character: `n` copies of `c`. -/
def repeatChar (c : Char) (n : Nat) : String := ⟨List.replicate n c⟩

/-- Substring membership test, list level: Python `needle in s`. -/
def isInfixL (n : List Char) : List Char → Bool
  | [] => n.isEmpty
  | c :: t => n.isPrefixOf (c :: t) || isInfixL n t

/-- Python `needle in s` on strings. -/
def strContains (s needle : String) : Bool := isInfixL needle.data s.data

/-- Python `str.replace(old, new)` for single characters, here `_` to space. -/
def underscoresToSpaces (s : String) : String :=
  ⟨s.data.map (fun c => if c = '_' then ' ' else c)⟩

/-! ### Trim lemmas -/

theorem dropWhile_dropWhile (p : Char → Bool) (l : List Char) :
    (l.dropWhile p).dropWhile p = l.dropWhile p := by
  induction l with
  | nil => rfl
  | cons a t ih =>
    by_cases h : p a
    · simp [List.dropWhile_cons, h, ih]
    · simp [List.dropWhile_cons, h]

theorem ltrim_ltrim (l : List Char) : ltrim (ltrim l) = ltrim l :=
  dropWhile_dropWhile isPySpace l

theorem rtrim_rtrim (l : List Char) : rtrim (rtrim l) = rtrim l := by
  unfold rtrim
  rw [List.reverse_reverse, dropWhile_dropWhile]

theorem ltrim_eq_self_of_dropWhile (l : List Char) (h : l.dropWhile isPySpace = l) :
    ltrim l = l := h

/-- A left-trimmed nonempty list starts with a non-space character. -/
theorem head_not_space_of_ltrim_eq (a : Char) (t : List Char)
    (h : ltrim (a :: t) = a :: t) : isPySpace a = false := by
  have hh := List.head?_dropWhile_not isPySpace (a :: t)
  unfold ltrim at h
  rw [h] at hh
  simpa using hh

/-- `rtrim l` is a prefix of `l`, exhibited by an explicit decomposition. -/
theorem rtrim_decomp (l : List Char) :
    l = rtrim l ++ (l.reverse.takeWhile isPySpace).reverse := by
  unfold rtrim
  rw [← List.reverse_append, List.takeWhile_append_dropWhile, List.reverse_reverse]

/-- Left-trimming is a no-op on any right-trim of a left-trimmed list. -/
theorem ltrim_rtrim (m : List Char) (hm : ltrim m = m) : ltrim (rtrim m) = rtrim m := by
  cases h : rtrim m with
  | nil => rfl
  | cons a t =>
    have hdec := rtrim_decomp m
    rw [h] at hdec
    have hns : isPySpace a = false := by
      have hm' : ltrim (a :: (t ++ (m.reverse.takeWhile isPySpace).reverse)) =
          a :: (t ++ (m.reverse.takeWhile isPySpace).reverse) := by
        rw [List.cons_append] at hdec
        rw [← hdec]
        exact hm
      exact head_not_space_of_ltrim_eq _ _ hm'
    unfold ltrim
    rw [List.dropWhile_cons_of_neg (by simp [hns])]

/-- Python strip is idempotent, list level. -/
theorem pyStripL_idem (l : List Char) : pyStripL (pyStripL l) = pyStripL l := by
  unfold pyStripL
  rw [ltrim_rtrim (ltrim l) (ltrim_ltrim l), rtrim_rtrim]

/-- Python strip is idempotent. -/
theorem pyStrip_idem (s : String) : pyStrip (pyStrip s) = pyStrip s := by
  unfold pyStrip
  exact congrArg String.mk (pyStripL_idem s.data)

/-! ### JSON values and `json.loads`

A parsed JSON value.  Objects are ordered association lists; `json.loads`
keeps the last value for a duplicate key, which the parser below reproduces
by overwriting in place. -/

inductive Json where
  | null : Json
  | bool (b : Bool) : Json
  | num (q : Rat) : Json
  | str (s : String) : Json
  | arr (elems : List Json) : Json
  | obj (fields : List (String × Json)) : Json

/-- Python dict lookup `d[k]` / `k in d` on an ordered association list. -/
def lookupJ (k : String) : List (String × Json) → Option Json
  | [] => none
  | (k', v) :: t => if k' = k then some v else lookupJ k t

/-- Python dict assignment `d[k] = v`: update in place, else append. -/
def setKey (k : String) (v : Json) : List (String × Json) → List (String × Json)
  | [] => [(k, v)]
  | (k', v') :: t => if k' = k then (k, v) :: t else (k', v') :: setKey k v t

/-- JSON whitespace accepted between tokens by `json.loads`. -/
def isJsonWs (c : Char) : Bool := c = ' ' || c = '\t' || c = '\n' || c = '\x0d'

/-- Skip JSON whitespace. -/
def skipWs (l : List Char) : List Char := l.dropWhile isJsonWs

/-- Hexadecimal digit value, for `\uXXXX` escapes. -/
def hexVal (c : Char) : Option Nat :=
  if '0' ≤ c ∧ c ≤ '9' then some (c.toNat - '0'.toNat)
  else if 'a' ≤ c ∧ c ≤ 'f' then some (c.toNat - 'a'.toNat + 10)
  else if 'A' ≤ c ∧ c ≤ 'F' then some (c.toNat - 'A'.toNat + 10)
  else none

/-- Parse the remainder of a JSON string literal (after the opening quote).
Unpaired surrogate escapes are mapped to the replacement behaviour of
`Char.ofNat` (this corner is not exercised by any claim). -/
def parseJStr (acc : List Char) : List Char → Option (String × List Char)
  | [] => none
  | '"' :: t => some (⟨acc.reverse⟩, t)
  | '\\' :: '"' :: t => parseJStr ('"' :: acc) t
  | '\\' :: '\\' :: t => parseJStr ('\\' :: acc) t
  | '\\' :: '/' :: t => parseJStr ('/' :: acc) t
  | '\\' :: 'b' :: t => parseJStr ('\x08' :: acc) t
  | '\\' :: 'f' :: t => parseJStr ('\x0c' :: acc) t
  | '\\' :: 'n' :: t => parseJStr ('\n' :: acc) t
  | '\\' :: 'r' :: t => parseJStr ('\x0d' :: acc) t
  | '\\' :: 't' :: t => parseJStr ('\t' :: acc) t
  | '\\' :: 'u' :: h1 :: h2 :: h3 :: h4 :: t =>
    match hexVal h1, hexVal h2, hexVal h3, hexVal h4 with
    | some a, some b, some c, some d =>
      parseJStr (Char.ofNat (((a * 16 + b) * 16 + c) * 16 + d) :: acc) t
    | _, _, _, _ => none
  | '\\' :: _ => none
  | c :: t => if c.toNat < 32 then none else parseJStr (c :: acc) t

/-- Digits of a decimal number. -/
def takeDigits (l : List Char) : List Char × List Char :=
  (l.takeWhile Char.isDigit, l.dropWhile Char.isDigit)

/-- Numeric value of a digit string. -/
def digitsToNat (ds : List Char) : Nat :=
  ds.foldl (fun acc c => acc * 10 + (c.toNat - '0'.toNat)) 0

/-- Rational value of a parsed decimal: sign, integer digits, fraction
digits, exponent sign and exponent digits. -/
def ratOfParts (neg : Bool) (ip fp : List Char) (eneg : Bool) (e : Nat) : Rat :=
  let mant : Int := Int.ofNat (digitsToNat ip * 10 ^ fp.length + digitsToNat fp)
  let mant : Int := if neg then -mant else mant
  let base : Rat := (mant : Rat) / ((10 : Rat) ^ fp.length)
  if eneg then base / ((10 : Rat) ^ e) else base * ((10 : Rat) ^ e)

/-- Parse a JSON number per the `json` module grammar: optional minus, an
integer part without leading zeros, optional fraction, optional exponent. -/
def parseJNum (l : List Char) : Option (Rat × List Char) :=
  let (neg, l1) : Bool × List Char :=
    match l with
    | '-' :: t => (true, t)
    | _ => (false, l)
  let (ip, l2) := takeDigits l1
  if ip.isEmpty then none
  else if ip.length > 1 ∧ ip.headD '0' = '0' then none
  else
    let (fp, l3) : List Char × List Char :=
      match l2 with
      | '.' :: t => takeDigits t
      | _ => ([], l2)
    match l2 with
    | '.' :: _ =>
      if fp.isEmpty then none else parseJNumExp neg ip fp l3
    | _ => parseJNumExp neg ip fp l3
where
  /-- Optional exponent part, then assemble the rational value. -/
  parseJNumExp (neg : Bool) (ip fp : List Char) (l : List Char) :
      Option (Rat × List Char) :=
    let (hasExp, eneg, l4) : Bool × Bool × List Char :=
      match l with
      | 'e' :: '-' :: t => (true, true, t)
      | 'e' :: '+' :: t => (true, false, t)
      | 'e' :: t => (true, false, t)
      | 'E' :: '-' :: t => (true, true, t)
      | 'E' :: '+' :: t => (true, false, t)
      | 'E' :: t => (true, false, t)
      | _ => (false, false, l)
    if hasExp then
      let (ep, l5) := takeDigits l4
      if ep.isEmpty then none
      else some (ratOfParts neg ip fp eneg (digitsToNat ep), l5)
    else
      some (ratOfParts neg ip fp false 0, l)

mutual

/-- Parse one JSON value (fuel-bounded recursive descent). -/
def parseJVal (fuel : Nat) (l : List Char) : Option (Json × List Char) :=
  match fuel with
  | 0 => none
  | fuel + 1 =>
    match skipWs l with
    | [] => none
    | '"' :: t => (parseJStr [] t).map (fun (s, r) => (Json.str s, r))
    | '{' :: t => parseJObj fuel [] t
    | '[' :: t => parseJArr fuel [] t
    | 't' :: 'r' :: 'u' :: 'e' :: t => some (Json.bool true, t)
    | 'f' :: 'a' :: 'l' :: 's' :: 'e' :: t => some (Json.bool false, t)
    | 'n' :: 'u' :: 'l' :: 'l' :: t => some (Json.null, t)
    | l' => (parseJNum l').map (fun (q, r) => (Json.num q, r))

/-- Parse the inside of a JSON object after `{` or after a comma. -/
def parseJObj (fuel : Nat) (acc : List (String × Json)) (l : List Char) :
    Option (Json × List Char) :=
  match fuel with
  | 0 => none
  | fuel + 1 =>
    match skipWs l with
    | '}' :: t => if acc.isEmpty then some (Json.obj [], t) else none
    | '"' :: t =>
      match parseJStr [] t with
      | none => none
      | some (k, r) =>
        match skipWs r with
        | ':' :: r2 =>
          match parseJVal fuel r2 with
          | none => none
          | some (v, r3) =>
            match skipWs r3 with
            | ',' :: r4 => parseJObj fuel (setKey k v acc) r4
            | '}' :: r4 => some (Json.obj (setKey k v acc), r4)
            | _ => none
        | _ => none
    | _ => none

/-- Parse the inside of a JSON array after `[` or after a comma. -/
def parseJArr (fuel : Nat) (acc : List Json) (l : List Char) :
    Option (Json × List Char) :=
  match fuel with
  | 0 => none
  | fuel + 1 =>
    match skipWs l with
    | ']' :: t => if acc.isEmpty then some (Json.arr [], t) else none
    | l' =>
      match parseJVal fuel l' with
      | none => none
      | some (v, r) =>
        match skipWs r with
        | ',' :: r2 => parseJArr fuel (acc ++ [v]) r2
        | ']' :: r2 => some (Json.arr (acc ++ [v]), r2)
        | _ => none

end

/-- Python `json.loads`: parse one JSON document, demand only trailing
whitespace after it. -/
def jsonParse (s : String) : Option Json :=
  match parseJVal (2 * s.data.length + 2) s.data with
  | none => none
  | some (v, rest) => if (skipWs rest).isEmpty then some v else none

/-! ### Response repair pipeline (`llm_service.py`)

`LLMService._clean_json_response` and the inline truncation repair of
`LLMService.generate_insights`, lines 103-116. -/

/-- `LLMService._clean_json_response`: trim, strip a leading code-fence
marker (optionally tagged `json`), strip a trailing fence marker, trim. -/
def cleanJsonResponse (text : String) : String :=
  let text := pyStrip text
  let text :=
    if pyStartsWith text "```json" then strDrop text 7
    else if pyStartsWith text "```" then strDrop text 3
    else text
  let text := if pyEndsWith text "```" then strDropRight text 3 else text
  pyStrip text

/-- Truncation heuristic of `generate_insights` (lines 107-112): if the text
does not end with a closing brace and `{` occurrences exceed `}`
occurrences, append the deficit of closing braces. -/
def truncFix (text : String) : String :=
  if !pyEndsWith text "\x7d" then
    let openBraces := countChar '{' text
    let closeBraces := countChar '}' text
    if openBraces > closeBraces then
      text ++ repeatChar '}' (openBraces - closeBraces)
    else text
  else text

/-- The text-level repair of `generate_insights`, lines 103-114, inlined
from the source: `response.text.strip()`, then the truncation heuristic,
then `_clean_json_response`. -/
def repairText (raw : String) : String :=
  let t := pyStrip raw
  let t :=
    if !pyEndsWith t "\x7d" then
      let openBraces := countChar '{' t
      let closeBraces := countChar '}' t
      if openBraces > closeBraces then
        t ++ repeatChar '}' (openBraces - closeBraces)
      else t
    else t
  cleanJsonResponse t

/-- Modelled from the spec, section 4.4: the repair order the spec
describes, with fence stripping before the truncation heuristic. -/
def specOrderRepairText (raw : String) : String :=
  truncFix (cleanJsonResponse (pyStrip raw))

/-- The parse stage of `generate_insights` (line 116): repaired text to a
JSON value, `none` for a `json.JSONDecodeError`. -/
def repairedJson (raw : String) : Option Json :=
  jsonParse (repairText raw)

/-! ### Backfill / sanitize (`LLMService._validate_and_fix_response`) -/

/-- Python truthiness (`not x`) for parsed JSON values. -/
def pyTruthy : Json → Bool
  | .null => false
  | .bool b => b
  | .num q => if q = 0 then false else true
  | .str s => if s = "" then false else true
  | .arr l => !l.isEmpty
  | .obj l => !l.isEmpty

/-- Python `float(str)` on decimal literals: strip, optional sign, digits
with optional fraction and exponent.  The `inf`/`nan` words and digit-group
underscores Python also accepts are omitted; no claim exercises them. -/
def pyFloatOfString (s : String) : Option Rat :=
  let l := pyStripL s.data
  let (neg, l1) : Bool × List Char :=
    match l with
    | '-' :: t => (true, t)
    | '+' :: t => (false, t)
    | _ => (false, l)
  let (ip, l2) := takeDigits l1
  let (fp, l3) : List Char × List Char :=
    match l2 with
    | '.' :: t => takeDigits t
    | _ => ([], l2)
  if ip.isEmpty ∧ fp.isEmpty then none
  else
    match l3 with
    | [] => some (ratOfParts neg ip fp false 0)
    | 'e' :: t => pyFloatExp neg ip fp t
    | 'E' :: t => pyFloatExp neg ip fp t
    | _ => none
where
  /-- Exponent tail: optional sign, digits, end of string. -/
  pyFloatExp (neg : Bool) (ip fp : List Char) (l : List Char) : Option Rat :=
    let (eneg, l1) : Bool × List Char :=
      match l with
      | '-' :: t => (true, t)
      | '+' :: t => (false, t)
      | _ => (false, l)
    let (ep, l2) := takeDigits l1
    if ep.isEmpty then none
    else if ¬ l2.isEmpty then none
    else some (ratOfParts neg ip fp eneg (digitsToNat ep))

/-- Python `float(x)` on a parsed JSON value: numbers and booleans convert,
numeric strings parse, everything else raises (`none`). -/
def pyFloatJson : Json → Option Rat
  | .num q => some q
  | .bool b => some (if b then 1 else 0)
  | .str s => pyFloatOfString s
  | _ => none

/-- `_validate_and_fix_response`, category step: if `category` is absent or
falsy, replace it with the request category. -/
def fixCategory (category : String) (d : List (String × Json)) :
    List (String × Json) :=
  match lookupJ "category" d with
  | none => setKey "category" (.str category) d
  | some v => if pyTruthy v then d else setKey "category" (.str category) d

/-- Membership of a JSON value in `["Low", "Medium", "High"]` under Python
equality: only those three strings compare equal. -/
def riskOk : Json → Bool
  | .str s => s = "Low" || s = "Medium" || s = "High"
  | _ => false

/-- `_validate_and_fix_response`, risk step: absent or out-of-enumeration
`overall_risk_level` becomes `"Medium"`. -/
def fixRisk (d : List (String × Json)) : List (String × Json) :=
  match lookupJ "overall_risk_level" d with
  | none => setKey "overall_risk_level" (.str "Medium") d
  | some v => if riskOk v then d else setKey "overall_risk_level" (.str "Medium") d

/-- Placeholder list element for a missing or invalid list field. -/
def placeholderFor (fieldName : String) : String :=
  "Analysis pending for " ++ underscoresToSpaces fieldName

/-- `_validate_and_fix_response`, one iteration of the list-field loop:
replace an absent, non-list or empty field with the placeholder list. -/
def fixListField (fieldName : String) (d : List (String × Json)) :
    List (String × Json) :=
  match lookupJ fieldName d with
  | none => setKey fieldName (.arr [.str (placeholderFor fieldName)]) d
  | some (.arr l) =>
    if l.isEmpty then setKey fieldName (.arr [.str (placeholderFor fieldName)]) d
    else d
  | some _ => setKey fieldName (.arr [.str (placeholderFor fieldName)]) d

/-- `_validate_and_fix_response`, confidence step: absent scores default to
`0.85`; present scores go through `float(...)` (which raises on
non-convertible values) and are clamped into `[0.70, 0.98]`. -/
def fixConfidence (d : List (String × Json)) : Option (List (String × Json)) :=
  match lookupJ "confidence_score" d with
  | none => some (setKey "confidence_score" (.num 0.85) d)
  | some v =>
    match pyFloatJson v with
    | none => none
    | some score => some (setKey "confidence_score" (.num (max 0.70 (min 0.98 score))) d)

/-- The first three backfill steps of `_validate_and_fix_response` in
source order: category, risk level, then the list-field loop unrolled in
its iteration order. -/
def sanitizeBase (d : List (String × Json)) (category : String) :
    List (String × Json) :=
  fixListField "recommended_actions_next_90_days"
    (fixListField "negotiation_levers"
      (fixListField "key_risks"
        (fixRisk (fixCategory category d))))

/-- `LLMService._validate_and_fix_response`: the four backfill steps in
source order (category, risk level, the three list fields, confidence
score).  `none` models the function raising. -/
def sanitizeResponse (d : List (String × Json)) (category : String) :
    Option (List (String × Json)) :=
  fixConfidence (sanitizeBase d category)

/-! ### Data models (`models.py`) -/

/-- `RiskLevel` enumeration. -/
inductive RiskLevel where
  | low : RiskLevel
  | medium : RiskLevel
  | high : RiskLevel
deriving DecidableEq

/-- `SupplierInput`.  The same shape carries both raw (as deserialized) and
validated (stripped) supplier records; floats are modelled as `Rat`. -/
structure SupplierInput where
  supplier_name : String
  annual_spend_usd : Rat
  on_time_delivery_pct : Rat
  contract_expiry_months : Int
  single_source_dependency : Bool
  region : String
deriving DecidableEq

/-- `InsightsRequest`. -/
structure InsightsRequest where
  category : String
  suppliers : List SupplierInput
deriving DecidableEq

/-- `InsightsResponse` (validated output). -/
structure InsightsResponse where
  category : String
  overall_risk_level : RiskLevel
  key_risks : List String
  negotiation_levers : List String
  recommended_actions_next_90_days : List String
  confidence_score : Rat
deriving DecidableEq

/-! ### Pydantic validation of the request

`InsightsRequest` / `SupplierInput` constraints from `models.py`: field
bounds (`min_length`, `gt`, `ge`, `le`, `min_items`) and the strip
validators.  Pydantic collects one message per offending field. -/

/-- Errors of the `supplier_name` field: `min_length=1`, then the
non-blank validator. -/
def nameErrors (n : String) : List String :=
  if n = "" then ["supplier_name: ensure this value has at least 1 characters"]
  else if pyStrip n = "" then ["supplier_name: Field cannot be empty or whitespace only"]
  else []

/-- Errors of the `region` field, same constraints as the name. -/
def regionErrors (n : String) : List String :=
  if n = "" then ["region: ensure this value has at least 1 characters"]
  else if pyStrip n = "" then ["region: Field cannot be empty or whitespace only"]
  else []

/-- Errors of `annual_spend_usd` (`gt=0`). -/
def spendErrors (q : Rat) : List String :=
  if q ≤ 0 then ["annual_spend_usd: ensure this value is greater than 0"] else []

/-- Errors of `on_time_delivery_pct` (`ge=0`, `le=100`). -/
def pctErrors (q : Rat) : List String :=
  (if q < 0 then ["on_time_delivery_pct: ensure this value is greater than or equal to 0"]
   else []) ++
  (if 100 < q then ["on_time_delivery_pct: ensure this value is less than or equal to 100"]
   else [])

/-- Errors of `contract_expiry_months` (`ge=0`). -/
def expiryErrors (m : Int) : List String :=
  if m < 0 then ["contract_expiry_months: ensure this value is greater than or equal to 0"]
  else []

/-- All field errors of a single supplier record. -/
def supplierFieldErrors (s : SupplierInput) : List String :=
  nameErrors s.supplier_name ++ spendErrors s.annual_spend_usd ++
    pctErrors s.on_time_delivery_pct ++ expiryErrors s.contract_expiry_months ++
    regionErrors s.region

/-- Indexed errors of a supplier list. -/
def supplierErrorsIdx : Nat → List SupplierInput → List String
  | _, [] => []
  | i, s :: t =>
    (supplierFieldErrors s).map (fun m => "suppliers -> " ++ toString i ++ " -> " ++ m) ++
      supplierErrorsIdx (i + 1) t

/-- Errors of the `category` field (`min_length=1`, non-blank validator). -/
def categoryErrors (c : String) : List String :=
  if c = "" then ["category: ensure this value has at least 1 characters"]
  else if pyStrip c = "" then ["category: Category cannot be empty or whitespace only"]
  else []

/-- Errors of the `suppliers` field (`min_items=1`, then per-item models). -/
def suppliersErrors (l : List SupplierInput) : List String :=
  if l.isEmpty then ["suppliers: ensure this value has at least 1 items"]
  else supplierErrorsIdx 0 l

/-- The values pydantic stores on success: validators return stripped text. -/
def stripSupplier (s : SupplierInput) : SupplierInput :=
  { s with supplier_name := pyStrip s.supplier_name, region := pyStrip s.region }

/-- Pydantic validation of an incoming `InsightsRequest`: aggregate all
field errors; on success store the stripped field values. -/
def validateRequest (r : InsightsRequest) : Except (List String) InsightsRequest :=
  if (categoryErrors r.category ++ suppliersErrors r.suppliers).isEmpty then
    .ok ⟨pyStrip r.category, r.suppliers.map stripSupplier⟩
  else .error (categoryErrors r.category ++ suppliersErrors r.suppliers)

/-! ### Request handler (`main.py`) -/

/-- Manual per-supplier checks of `generate_insights` (`main.py` lines
69-92), returning the detail of the first `HTTPException` raised. -/
def manualCheckSuppliers : Nat → List SupplierInput → Option String
  | _, [] => none
  | idx, s :: t =>
    if s.supplier_name = "" ∨ pyStrip s.supplier_name = "" then
      some ("Supplier at index " ++ toString idx ++ " has an empty or invalid name.")
    else if s.annual_spend_usd ≤ 0 then
      some ("Supplier '" ++ s.supplier_name ++ "' has invalid annual spend (must be > 0).")
    else if ¬ (0 ≤ s.on_time_delivery_pct ∧ s.on_time_delivery_pct ≤ 100) then
      some ("Supplier '" ++ s.supplier_name ++ "' has invalid delivery percentage (must be 0-100).")
    else if s.contract_expiry_months < 0 then
      some ("Supplier '" ++ s.supplier_name ++ "' has invalid contract expiry months (must be >= 0).")
    else manualCheckSuppliers (idx + 1) t

/-- Manual validation of `generate_insights` (`main.py` lines 63-92): the
empty-list check, then the per-supplier checks. -/
def manualCheck (req : InsightsRequest) : Option String :=
  if req.suppliers.isEmpty then
    some "Supplier list cannot be empty. At least one supplier is required."
  else manualCheckSuppliers 0 req.suppliers

/-- Externally visible outcome of one request. -/
inductive Outcome where
  | ok : Outcome
  | validationError (details : List String) : Outcome
  | httpError (code : Nat) (detail : String) : Outcome
deriving DecidableEq

/-- The generic exception mapping of `generate_insights` (`main.py` lines
112-129): messages containing `"API"` map to 503, then messages containing
`"JSON"` map to the parse 500, anything else to the generic 500. -/
def mapServiceError (msg : String) : Outcome :=
  if strContains msg "API" then
    .httpError 503 "LLM service is currently unavailable. Please try again later."
  else if strContains msg "JSON" then
    .httpError 500 "Failed to parse LLM response. Please contact support."
  else
    .httpError 500 ("An error occurred while generating insights: " ++ msg)

/-- Behaviour of `llm_service.generate_insights` for one call: it either
returns a response or raises an `Exception` with some message. -/
inductive ServiceBehavior where
  | succeeds : ServiceBehavior
  | raises (msg : String) : ServiceBehavior

/-- The request handler: framework-level pydantic validation of the body
(a failure produces the 422 handler of `main.py` lines 21-36 and the
endpoint body never runs), then the manual checks, then the service call.
The `Nat` component counts invocations of the generation service. -/
def handleRequest (raw : InsightsRequest) (svc : ServiceBehavior) : Outcome × Nat :=
  match validateRequest raw with
  | .error errs => (.validationError errs, 0)
  | .ok req =>
    match manualCheck req with
    | some detail => (.httpError 422 detail, 0)
    | none =>
      match svc with
      | .succeeds => (.ok, 1)
      | .raises msg => (mapServiceError msg, 1)

/-- Message wrapper of the generic `except` block of
`llm_service.generate_insights` (line 139): how a failing external
generation call surfaces to the handler. -/
def genFailureMessage (m : String) : String := "Error generating insights: " ++ m

/-- Message wrapper of the `AttributeError` block (line 134): how a
response without a text payload surfaces. -/
def attrFailureMessage (m : String) : String :=
  "Error accessing response attributes: " ++ m

/-- Message wrapper of the `json.JSONDecodeError` block (line 128): how a
parse failure surfaces. -/
def parseFailureMessage (m : String) : String :=
  "Failed to parse LLM response as JSON: " ++ m

/-! ### Output model construction (pydantic `InsightsResponse`)

Constructing `InsightsResponse(**data)`: every field is required; the list
validator rejects blank entries and strips the rest.  Pydantic v1 numeric
to string coercions are not modelled; no claim exercises them. -/

/-- A `str` field value. -/
def asValidatedStr : Json → Option String
  | .str s => some s
  | _ => none

/-- A `RiskLevel` field value: exactly the three enumeration strings. -/
def asRiskLevel : Json → Option RiskLevel
  | .str "Low" => some .low
  | .str "Medium" => some .medium
  | .str "High" => some .high
  | _ => none

/-- The per-item part of the list validator: every item a non-blank
string, stored stripped. -/
def insightItems : List Json → Option (List String)
  | [] => some []
  | .str s :: t =>
    if pyStrip s = "" then none
    else match insightItems t with
      | none => none
      | some r => some (pyStrip s :: r)
  | _ :: _ => none

/-- A `List[str]` field with `min_items=1` and the non-blank validator. -/
def asInsightList : Json → Option (List String)
  | .arr l => if l.isEmpty then none else insightItems l
  | _ => none

/-- The `confidence_score` field (`ge=0`, `le=1`). -/
def asConfidence : Json → Option Rat
  | .num q => if 0 ≤ q ∧ q ≤ 1 then some q else none
  | _ => none

/-- `InsightsResponse(**data)` from a sanitized JSON object, `none` for a
pydantic `ValidationError`. -/
def mkInsightsResponse (d : List (String × Json)) : Option InsightsResponse := do
  let c ← lookupJ "category" d >>= asValidatedStr
  let risk ← lookupJ "overall_risk_level" d >>= asRiskLevel
  let kr ← lookupJ "key_risks" d >>= asInsightList
  let nl ← lookupJ "negotiation_levers" d >>= asInsightList
  let ra ← lookupJ "recommended_actions_next_90_days" d >>= asInsightList
  let conf ← lookupJ "confidence_score" d >>= asConfidence
  pure ⟨c, risk, kr, nl, ra, conf⟩

/-! ### Prompt builder (`llm_service.py`)

`_build_system_prompt` and `_build_user_prompt`.  The user prompt is an
f-string with two interpolations (the category and the rendered supplier
JSON); the rendered supplier JSON (`json.dumps` of the supplier dicts) is
abstracted as a string parameter.  The constant text around the needles the
claims mention is split at those needles; concatenating the pieces in
order reproduces the source template verbatim. -/

/-- `_build_system_prompt` (constant). -/
def buildSystemPrompt : String :=
  "You are a procurement analytics expert specializing in supplier risk assessment and sourcing strategy for manufacturing companies.\n\nYour task is to analyze supplier data and generate actionable insights for procurement executives.\n\nCRITICAL REQUIREMENTS:\n1. You must respond ONLY with valid JSON matching the exact schema provided\n2. No explanatory text before or after the JSON\n3. No markdown formatting or code blocks\n4. All risk assessments must be data-driven and based on the input metrics\n5. Focus on actionable, executive-level insights suitable for mobile dashboards\n\nANALYSIS FRAMEWORK:\n- Assess concentration risk (single source dependencies, spend distribution)\n- Evaluate delivery performance and operational risk\n- Identify contract timing urgencies (expiring within 6 months = high priority)\n- Consider geographic diversification\n- Generate concrete, time-bound action items"

/-- User prompt text before the category interpolation. -/
def userPromptHead : String :=
  "Analyze the following procurement data and generate structured insights.\n\nCATEGORY: "

/-- User prompt text between the category and the supplier JSON. -/
def userPromptMid : String := "\n\nSUPPLIER DATA:\n"

/-- Constant user prompt tail, piece before the High-risk threshold text. -/
def userPromptTailA : String :=
  "\n\nGenerate a JSON response with this EXACT structure:\n\x7b\n  \"category\": \"string (the category name)\",\n  \"overall_risk_level\": \"Low OR Medium OR High\",\n  \"key_risks\": [\"risk 1\", \"risk 2\", \"risk 3\"],\n  \"negotiation_levers\": [\"lever 1\", \"lever 2\", \"lever 3\"],\n  \"recommended_actions_next_90_days\": [\"action 1\", \"action 2\", \"action 3\"],\n  \"confidence_score\": 0.XX\n\x7d\n\nSCORING GUIDELINES:\n- overall_risk_level: "

/-- The High-risk rule of the scoring guidelines: three-month expiry. -/
def needleHigh3Months : String :=
  "\"High\" if single-source dependency exists OR contracts expiring within 3 months"

/-- Piece between the High-risk and Medium-risk rules. -/
def userPromptTailB : String :=
  " OR delivery performance < 90%\n- overall_risk_level: "

/-- The Medium-risk rule: contracts three to six months out. -/
def needleMedium36 : String :=
  "\"Medium\" if moderate concerns (contracts 3-6 months"

/-- Piece between the Medium-risk rule and the confidence rubric base. -/
def userPromptTailC : String :=
  ", delivery 90-95%, concentrated spend)\n- overall_risk_level: \"Low\" if well-diversified, strong performance, adequate contract runway\n- key_risks: Must identify 3-5 specific risks based on data (concentration, timing, performance, geographic)\n- negotiation_levers: Must identify 3-5 specific leverage points (competitive alternatives, volume, contract timing, performance gaps)\n- recommended_actions_next_90_days: Must provide 3-5 concrete, time-bound actions prioritized by urgency\n\nCalculate confidence_score based on these factors:\n- "

/-- The confidence rubric base line start. -/
def needleBase085 : String := "Start with base 0.85"

/-- Remainder of the constant user prompt tail. -/
def userPromptTailD : String :=
  " (we have complete, structured data)\n- Deduct 0.05 if only 1-2 suppliers (limited comparison basis)\n- Deduct 0.05 if any data appears inconsistent or unclear\n- Deduct 0.10 if analysis requires significant assumptions\n- Add 0.05 if there are clear, unambiguous risk signals\n\nTypical ranges:\n- 0.90-0.95: Complete data, 3+ suppliers, clear patterns\n- 0.80-0.89: Good data quality, some minor gaps or ambiguity\n- 0.70-0.79: Acceptable data, but requires some assumptions\n\nFor this specific dataset with 3 suppliers and complete fields, confidence should be 0.85-0.92.\n\nIMPORTANT: Ensure your JSON is complete and properly closed. Do not truncate the response.\n\nRespond with ONLY the JSON object, no other text."

/-- The constant user prompt text after the supplier JSON interpolation. -/
def userPromptTail : String :=
  userPromptTailA ++ (needleHigh3Months ++ (userPromptTailB ++ (needleMedium36 ++
    (userPromptTailC ++ (needleBase085 ++ userPromptTailD)))))

/-- `_build_user_prompt` with the rendered supplier JSON as a parameter. -/
def buildUserPrompt (category suppliersJson : String) : String :=
  userPromptHead ++ category ++ userPromptMid ++ suppliersJson ++ userPromptTail

/-- `generate_insights` line 97: the full prompt sent to the model. -/
def buildFullPrompt (category suppliersJson : String) : String :=
  buildSystemPrompt ++ "\n\n" ++ buildUserPrompt category suppliersJson

/-! ### Association list lemmas -/

theorem lookupJ_setKey_self (k : String) (v : Json) (d : List (String × Json)) :
    lookupJ k (setKey k v d) = some v := by
  induction d with
  | nil => simp [setKey, lookupJ]
  | cons p t ih =>
    obtain ⟨k', v'⟩ := p
    by_cases h : k' = k
    · simp [setKey, h, lookupJ]
    · simp [setKey, h, lookupJ, ih]

theorem lookupJ_setKey_ne (k k' : String) (v : Json) (d : List (String × Json))
    (h : k' ≠ k) : lookupJ k (setKey k' v d) = lookupJ k d := by
  induction d with
  | nil => simp [setKey, lookupJ, h]
  | cons p t ih =>
    obtain ⟨k'', v''⟩ := p
    by_cases h2 : k'' = k'
    · simp [setKey, h2, lookupJ, h]
    · simp [setKey, h2, lookupJ, ih]

theorem lookupJ_fixCategory (k : String) (cat : String) (d : List (String × Json))
    (h : k ≠ "category") : lookupJ k (fixCategory cat d) = lookupJ k d := by
  unfold fixCategory
  cases lookupJ "category" d with
  | none => exact lookupJ_setKey_ne _ _ _ _ (fun he => h he.symm)
  | some v =>
    by_cases hv : pyTruthy v
    · simp [hv]
    · simp [hv, lookupJ_setKey_ne _ _ _ _ (fun he => h he.symm)]

theorem lookupJ_fixRisk (k : String) (d : List (String × Json))
    (h : k ≠ "overall_risk_level") : lookupJ k (fixRisk d) = lookupJ k d := by
  unfold fixRisk
  cases lookupJ "overall_risk_level" d with
  | none => exact lookupJ_setKey_ne _ _ _ _ (fun he => h he.symm)
  | some v =>
    by_cases hv : riskOk v
    · simp [hv]
    · simp [hv, lookupJ_setKey_ne _ _ _ _ (fun he => h he.symm)]

theorem lookupJ_fixListField (k fieldName : String) (d : List (String × Json))
    (h : k ≠ fieldName) : lookupJ k (fixListField fieldName d) = lookupJ k d := by
  unfold fixListField
  cases hv : lookupJ fieldName d with
  | none => exact lookupJ_setKey_ne _ _ _ _ (fun he => h he.symm)
  | some v =>
    cases v with
    | arr l =>
      by_cases hl : l.isEmpty
      · simp [hl, lookupJ_setKey_ne _ _ _ _ (fun he => h he.symm)]
      · simp [hl]
    | null => simp [lookupJ_setKey_ne _ _ _ _ (fun he => h he.symm)]
    | bool b => simp [lookupJ_setKey_ne _ _ _ _ (fun he => h he.symm)]
    | num q => simp [lookupJ_setKey_ne _ _ _ _ (fun he => h he.symm)]
    | str s => simp [lookupJ_setKey_ne _ _ _ _ (fun he => h he.symm)]
    | obj l => simp [lookupJ_setKey_ne _ _ _ _ (fun he => h he.symm)]

/-- The first three sanitize steps do not touch `confidence_score`. -/
theorem lookupJ_sanitizeBase_confidence (d : List (String × Json)) (cat : String) :
    lookupJ "confidence_score" (sanitizeBase d cat) = lookupJ "confidence_score" d := by
  unfold sanitizeBase
  rw [lookupJ_fixListField _ _ _ (by decide), lookupJ_fixListField _ _ _ (by decide),
    lookupJ_fixListField _ _ _ (by decide), lookupJ_fixRisk _ _ (by decide),
    lookupJ_fixCategory _ _ _ (by decide)]

/-- The list-field loop and the confidence step do not touch
`overall_risk_level`. -/
theorem lookupJ_sanitizeBase_risk (d : List (String × Json)) (cat : String) :
    lookupJ "overall_risk_level" (sanitizeBase d cat) =
      lookupJ "overall_risk_level" (fixRisk (fixCategory cat d)) := by
  unfold sanitizeBase
  rw [lookupJ_fixListField _ _ _ (by decide), lookupJ_fixListField _ _ _ (by decide),
    lookupJ_fixListField _ _ _ (by decide)]

/-- A successful sanitize is the base steps plus one `confidence_score`
write. -/
theorem sanitize_some_shape (d : List (String × Json)) (cat : String)
    (out : List (String × Json)) (hs : sanitizeResponse d cat = some out) :
    ∃ w, out = setKey "confidence_score" w (sanitizeBase d cat) := by
  unfold sanitizeResponse fixConfidence at hs
  cases hc : lookupJ "confidence_score" (sanitizeBase d cat) with
  | none =>
    rw [hc] at hs
    exact ⟨.num 0.85, (Option.some_inj.mp hs).symm⟩
  | some v =>
    rw [hc] at hs
    dsimp only at hs
    cases hf : pyFloatJson v with
    | none => rw [hf] at hs; exact absurd hs (by simp)
    | some score =>
      rw [hf] at hs
      exact ⟨.num (max 0.70 (min 0.98 score)), (Option.some_inj.mp hs).symm⟩

/-- The code pipeline factors as strip, then truncation heuristic, then
fence cleanup. -/
theorem repairText_eq (raw : String) :
    repairText raw = cleanJsonResponse (truncFix (pyStrip raw)) := rfl

/-! ### Claim theorems -/

/-- C2 counterexample: a single bad field does fail the whole response.
With `confidence_score` bound to `null`, `float(None)` raises and
`_validate_and_fix_response` fails as a whole. -/
theorem sanitize_raises_on_null_confidence :
    sanitizeResponse [("confidence_score", Json.null)] "Electronics" = none := rfl

/-- C2 (amended): the category, risk-level and list-field backfills never
raise for any value, and the sanitizer succeeds whenever
`confidence_score` is absent or its value converts under `float(...)`;
only a non-convertible `confidence_score` fails the whole response. -/
theorem sanitize_total_unless_confidence (d : List (String × Json)) (cat : String)
    (h : lookupJ "confidence_score" d = none ∨
      ∃ v q, lookupJ "confidence_score" d = some v ∧ pyFloatJson v = some q) :
    (sanitizeResponse d cat).isSome = true := by
  unfold sanitizeResponse fixConfidence
  rcases h with h | ⟨v, q, hv, hq⟩
  · rw [lookupJ_sanitizeBase_confidence, h]
    rfl
  · rw [lookupJ_sanitizeBase_confidence, hv]
    dsimp only
    rw [hq]
    rfl

/-- C2 witness: a response whose `key_risks` is `null` (a bad field) and
whose `confidence_score` is numeric sanitizes successfully. -/
theorem sanitize_total_unless_confidence_witness :
    (lookupJ "confidence_score" [("key_risks", Json.null), ("confidence_score", Json.num 2)] =
        some (Json.num 2) ∧ pyFloatJson (Json.num 2) = some 2) ∧
    (sanitizeResponse [("key_risks", Json.null), ("confidence_score", Json.num 2)]
        "Steel").isSome = true :=
  ⟨⟨rfl, rfl⟩,
    sanitize_total_unless_confidence _ "Steel" (Or.inr ⟨Json.num 2, 2, rfl, rfl⟩)⟩

/-- C3 counterexample: on a fenced, brace-deficient response the code
pipeline (truncation before fence stripping) leaves a stray fence and
unparseable text, while the spec order (fence stripping first) repairs it;
the two orders produce different texts. -/
theorem repair_order_fence_counterexample :
    repairText "```json\n\x7b\"a\": \"b\"\n```" = "\x7b\"a\": \"b\"\n```\x7d" ∧
    specOrderRepairText "```json\n\x7b\"a\": \"b\"\n```" = "\x7b\"a\": \"b\"\x7d" ∧
    repairText "```json\n\x7b\"a\": \"b\"\n```" ≠
      specOrderRepairText "```json\n\x7b\"a\": \"b\"\n```" ∧
    (jsonParse (repairText "```json\n\x7b\"a\": \"b\"\n```")).isSome = false ∧
    (jsonParse (specOrderRepairText "```json\n\x7b\"a\": \"b\"\n```")).isSome = true := by
  refine ⟨rfl, rfl, ?_, rfl, rfl⟩
  decide

/-- C3 (amended): the pipeline applies trim first, then the truncation
heuristic, and only then code-fence stripping (with its inner re-trims),
before parsing; fence stripping happens after the truncation heuristic is
evaluated, not before. -/
theorem repair_applies_truncation_before_fence_strip :
    (∀ raw, repairText raw = cleanJsonResponse (truncFix (pyStrip raw))) ∧
    (∀ raw, repairedJson raw = jsonParse (cleanJsonResponse (truncFix (pyStrip raw)))) :=
  ⟨fun raw => repairText_eq raw, fun raw => congrArg jsonParse (repairText_eq raw)⟩

/-- C4 counterexample: on `{"a": "b", "c": [1,2` the heuristic counts only
curly braces, so it appends one closing brace, not two, and the repaired
text still does not parse as JSON. -/
theorem trunc_appends_one_not_two :
    truncFix "\x7b\"a\": \"b\", \"c\": [1,2" = "\x7b\"a\": \"b\", \"c\": [1,2" ++ "\x7d" ∧
    truncFix "\x7b\"a\": \"b\", \"c\": [1,2" ≠ "\x7b\"a\": \"b\", \"c\": [1,2" ++ "\x7d\x7d" ∧
    (jsonParse (repairText "\x7b\"a\": \"b\", \"c\": [1,2")).isSome = false := by
  refine ⟨rfl, ?_, rfl⟩
  decide

/-- C4 (amended): the truncation heuristic appends exactly the deficit of
curly braces (one for the quoted text, whose unclosed bracket remains a
defect, so the result is still invalid); when a curly-brace deficit is the
only defect, as in `{"a": {"b": 1`, the repaired text parses as valid
JSON. -/
theorem trunc_counts_curly_braces_only :
    truncFix "\x7b\"a\": \"b\", \"c\": [1,2" = "\x7b\"a\": \"b\", \"c\": [1,2" ++ "\x7d" ∧
    (jsonParse (truncFix "\x7b\"a\": \"b\", \"c\": [1,2")).isSome = false ∧
    truncFix "\x7b\"a\": \x7b\"b\": 1" = "\x7b\"a\": \x7b\"b\": 1" ++ "\x7d\x7d" ∧
    (jsonParse (truncFix "\x7b\"a\": \x7b\"b\": 1")).isSome = true :=
  ⟨rfl, rfl, rfl, rfl⟩

/-- C5: an absent `confidence_score` is backfilled with exactly `0.85`; a
numeric one is clamped into `[0.70, 0.98]`. -/
theorem confidence_default_and_clamp (d : List (String × Json)) (cat : String) :
    (lookupJ "confidence_score" d = none →
      ∃ out, sanitizeResponse d cat = some out ∧
        lookupJ "confidence_score" out = some (Json.num 0.85)) ∧
    (∀ x : Rat, lookupJ "confidence_score" d = some (Json.num x) →
      ∃ out, sanitizeResponse d cat = some out ∧
        lookupJ "confidence_score" out = some (Json.num (max 0.70 (min 0.98 x)))) := by
  constructor
  · intro h
    refine ⟨setKey "confidence_score" (.num 0.85) (sanitizeBase d cat), ?_, ?_⟩
    · unfold sanitizeResponse fixConfidence
      rw [lookupJ_sanitizeBase_confidence, h]
    · exact lookupJ_setKey_self _ _ _
  · intro x h
    refine ⟨setKey "confidence_score" (.num (max 0.70 (min 0.98 x))) (sanitizeBase d cat), ?_, ?_⟩
    · unfold sanitizeResponse fixConfidence
      rw [lookupJ_sanitizeBase_confidence, h]
      rfl
    · exact lookupJ_setKey_self _ _ _

/-- C5 witness: absent score defaults to `0.85`; `1.5` clamps to `0.98`
and `-3` clamps to `0.70`. -/
theorem confidence_default_and_clamp_witness :
    (lookupJ "confidence_score" ([] : List (String × Json)) = none ∧
      ∃ out, sanitizeResponse [] "Steel" = some out ∧
        lookupJ "confidence_score" out = some (Json.num 0.85)) ∧
    (∃ out, sanitizeResponse [("confidence_score", Json.num 1.5)] "Steel" = some out ∧
      lookupJ "confidence_score" out = some (Json.num 0.98)) ∧
    (∃ out, sanitizeResponse [("confidence_score", Json.num (-3))] "Steel" = some out ∧
      lookupJ "confidence_score" out = some (Json.num 0.70)) := by
  refine ⟨⟨rfl, (confidence_default_and_clamp [] "Steel").1 rfl⟩, ?_, ?_⟩
  · obtain ⟨out, h1, h2⟩ :=
      (confidence_default_and_clamp [("confidence_score", Json.num 1.5)] "Steel").2 1.5 rfl
    exact ⟨out, h1, h2.trans (by norm_num)⟩
  · obtain ⟨out, h1, h2⟩ :=
      (confidence_default_and_clamp [("confidence_score", Json.num (-3))] "Steel").2 (-3) rfl
    exact ⟨out, h1, h2.trans (by norm_num)⟩

/-- C6: an absent or out-of-enumeration `overall_risk_level` is backfilled
with `"Medium"`, one of the three enumeration values is kept unchanged,
and a constructed response whose sanitized risk field is `"Medium"`
carries the `Medium` enumeration value. -/
theorem risk_level_backfill_medium (d : List (String × Json)) (cat : String)
    (out : List (String × Json)) (hs : sanitizeResponse d cat = some out) :
    (lookupJ "overall_risk_level" d = none →
      lookupJ "overall_risk_level" out = some (Json.str "Medium")) ∧
    (∀ v, lookupJ "overall_risk_level" d = some v → riskOk v = false →
      lookupJ "overall_risk_level" out = some (Json.str "Medium")) ∧
    (∀ v, lookupJ "overall_risk_level" d = some v → riskOk v = true →
      lookupJ "overall_risk_level" out = some v) ∧
    (∀ resp, mkInsightsResponse out = some resp →
      lookupJ "overall_risk_level" out = some (Json.str "Medium") →
      resp.overall_risk_level = RiskLevel.medium) := by
  obtain ⟨w, rfl⟩ := sanitize_some_shape d cat out hs
  have hout : lookupJ "overall_risk_level"
      (setKey "confidence_score" w (sanitizeBase d cat)) =
      lookupJ "overall_risk_level" (fixRisk (fixCategory cat d)) := by
    rw [lookupJ_setKey_ne _ _ _ _ (by decide), lookupJ_sanitizeBase_risk]
  have hcat : lookupJ "overall_risk_level" (fixCategory cat d) =
      lookupJ "overall_risk_level" d := lookupJ_fixCategory _ _ _ (by decide)
  refine ⟨?_, ?_, ?_, ?_⟩
  · intro h
    rw [hout]
    unfold fixRisk
    rw [hcat, h]
    exact lookupJ_setKey_self _ _ _
  · intro v h hv
    rw [hout]
    unfold fixRisk
    rw [hcat, h]
    simp only [hv, Bool.false_eq_true, if_false]
    exact lookupJ_setKey_self _ _ _
  · intro v h hv
    rw [hout]
    unfold fixRisk
    rw [hcat, h]
    simp only [hv, if_true]
    rw [hcat]
    exact h
  · intro resp hmk hm
    unfold mkInsightsResponse at hmk
    rw [hm] at hmk
    have hR : asRiskLevel (Json.str "Medium") = some RiskLevel.medium := rfl
    simp only [Option.bind_eq_bind, Option.bind_eq_some] at hmk
    obtain ⟨c, _, risk, hrisk, kr, _, nl, _, ra, _, conf, _, hpure⟩ := hmk
    obtain ⟨rv, hrv, hrl⟩ := hrisk
    cases hrv
    rw [hR] at hrl
    cases Option.some_inj.mp hrl
    cases Option.some_inj.mp hpure
    rfl

/-- C6 witness: `"Extreme"` is not in the enumeration and is replaced by
`"Medium"`, which constructs as the `Medium` enumeration value. -/
theorem risk_level_backfill_medium_witness :
    riskOk (Json.str "Extreme") = false ∧
    lookupJ "overall_risk_level"
      ((sanitizeResponse [("overall_risk_level", Json.str "Extreme")] "Steel").getD [])
        = some (Json.str "Medium") := by
  refine ⟨rfl, ?_⟩
  exact ((risk_level_backfill_medium [("overall_risk_level", Json.str "Extreme")] "Steel"
    ((sanitizeResponse [("overall_risk_level", Json.str "Extreme")] "Steel").getD [])
    rfl).2.1) (Json.str "Extreme") rfl rfl

/-- C7 counterexample: a timed-out generation call, wrapped by the service
as `Error generating insights: ...`, reaches the generic 500 outcome, not
the 503 service-unavailable outcome. -/
theorem generation_failure_maps_to_500 :
    handleRequest ⟨"Steel", [⟨"Acme", 100, 95, 12, false, "EU"⟩]⟩
        (.raises (genFailureMessage "Deadline exceeded")) =
      (.httpError 500 ("An error occurred while generating insights: " ++
        genFailureMessage "Deadline exceeded"), 1) ∧
    Outcome.httpError 500 ("An error occurred while generating insights: " ++
        genFailureMessage "Deadline exceeded") ≠
      .httpError 503 "LLM service is currently unavailable. Please try again later." := by
  exact ⟨rfl, by decide⟩

/-- C7 (amended): the handler returns 503 exactly for failure messages
containing `"API"`; other messages containing `"JSON"` get the parse 500,
the rest the generic 500; any service exception reaches this mapping with
one generation call made. -/
theorem service_error_mapping_by_substring (m : String) :
    (strContains m "API" = true →
      mapServiceError m =
        .httpError 503 "LLM service is currently unavailable. Please try again later.") ∧
    (strContains m "API" = false → strContains m "JSON" = true →
      mapServiceError m =
        .httpError 500 "Failed to parse LLM response. Please contact support.") ∧
    (strContains m "API" = false → strContains m "JSON" = false →
      mapServiceError m =
        .httpError 500 ("An error occurred while generating insights: " ++ m)) ∧
    (∀ raw req, validateRequest raw = .ok req → manualCheck req = none →
      handleRequest raw (.raises m) = (mapServiceError m, 1)) := by
  refine ⟨?_, ?_, ?_, ?_⟩
  · intro h
    simp [mapServiceError, h]
  · intro h1 h2
    simp [mapServiceError, h1, h2]
  · intro h1 h2
    simp [mapServiceError, h1, h2]
  · intro raw req hv hm
    unfold handleRequest
    rw [hv]
    dsimp only
    rw [hm]

/-- C7 witness: a key-quota failure message mentioning `API` maps to 503,
and a service exception on a valid request goes through the mapping with
exactly one generation call. -/
theorem service_error_mapping_by_substring_witness :
    strContains "403 API key invalid" "API" = true ∧
    mapServiceError "403 API key invalid" =
      .httpError 503 "LLM service is currently unavailable. Please try again later." ∧
    validateRequest ⟨"Steel", [⟨"Acme", 100, 95, 12, false, "EU"⟩]⟩ =
      .ok ⟨"Steel", [⟨"Acme", 100, 95, 12, false, "EU"⟩]⟩ ∧
    handleRequest ⟨"Steel", [⟨"Acme", 100, 95, 12, false, "EU"⟩]⟩
        (.raises "403 API key invalid") = (mapServiceError "403 API key invalid", 1) := by
  refine ⟨rfl, ?_, rfl, ?_⟩
  · exact (service_error_mapping_by_substring "403 API key invalid").1 rfl
  · exact (service_error_mapping_by_substring "403 API key invalid").2.2.2 _ _ rfl rfl

/-! ### Validation facts (for the reject-fast and consistency claims) -/

/-- A supplier violating one of the claim-listed bounds. -/
def badSupplier (s : SupplierInput) : Prop :=
  pyStrip s.supplier_name = "" ∨ s.annual_spend_usd ≤ 0 ∨
    s.on_time_delivery_pct < 0 ∨ 100 < s.on_time_delivery_pct ∨
    s.contract_expiry_months < 0

/-- A request failing one of the claim-listed validation conditions. -/
def badInput (r : InsightsRequest) : Prop :=
  pyStrip r.category = "" ∨ r.suppliers = [] ∨ ∃ s ∈ r.suppliers, badSupplier s

theorem supplierFieldErrors_ne_nil (s : SupplierInput) (h : badSupplier s) :
    supplierFieldErrors s ≠ [] := by
  unfold supplierFieldErrors
  rcases h with h | h | h | h | h
  · by_cases hn : s.supplier_name = "" <;>
      simp [nameErrors, hn, h, List.append_eq_nil]
  · simp [spendErrors, h, List.append_eq_nil]
  · simp [pctErrors, h, List.append_eq_nil]
  · simp [pctErrors, h, List.append_eq_nil]
  · simp [expiryErrors, h, List.append_eq_nil]

theorem supplierErrorsIdx_ne_nil (i : Nat) (l : List SupplierInput)
    (h : ∃ s ∈ l, badSupplier s) : supplierErrorsIdx i l ≠ [] := by
  induction l generalizing i with
  | nil =>
    obtain ⟨s, hs, _⟩ := h
    cases hs
  | cons a t ih =>
    obtain ⟨s, hs, hbad⟩ := h
    intro hcontra
    unfold supplierErrorsIdx at hcontra
    rw [List.append_eq_nil] at hcontra
    obtain ⟨hmap, htail⟩ := hcontra
    rw [List.map_eq_nil_iff] at hmap
    rcases List.mem_cons.mp hs with rfl | hmem
    · exact supplierFieldErrors_ne_nil s hbad hmap
    · exact ih (i + 1) ⟨s, hmem, hbad⟩ htail

/-- C1: a request violating any of the listed validation conditions gets a
client-error outcome with itemized messages, and the generation service is
never invoked (call count 0). -/
theorem validation_rejects_before_generation (raw : InsightsRequest)
    (svc : ServiceBehavior) (h : badInput raw) :
    ∃ errs, handleRequest raw svc = (.validationError errs, 0) ∧ errs ≠ [] := by
  have herrs : categoryErrors raw.category ++ suppliersErrors raw.suppliers ≠ [] := by
    intro hcontra
    rw [List.append_eq_nil] at hcontra
    obtain ⟨hcat, hsup⟩ := hcontra
    rcases h with h | h | h
    · by_cases hc : raw.category = "" <;> simp [categoryErrors, hc, h] at hcat
    · simp [suppliersErrors, h] at hsup
    · obtain ⟨s, hs, hbad⟩ := h
      have hne : raw.suppliers.isEmpty = false := by
        cases hl : raw.suppliers with
        | nil => rw [hl] at hs; cases hs
        | cons a t => rfl
      rw [suppliersErrors, hne] at hsup
      simp at hsup
      exact supplierErrorsIdx_ne_nil 0 raw.suppliers ⟨s, hs, hbad⟩ hsup
  refine ⟨categoryErrors raw.category ++ suppliersErrors raw.suppliers, ?_, herrs⟩
  have hE : (categoryErrors raw.category ++ suppliersErrors raw.suppliers).isEmpty = false := by
    cases hl : categoryErrors raw.category ++ suppliersErrors raw.suppliers with
    | nil => exact absurd hl herrs
    | cons a t => rfl
  unfold handleRequest validateRequest
  simp [hE]

/-- C1 witness: an empty supplier list is rejected with a nonempty error
list and zero generation calls. -/
theorem validation_rejects_before_generation_witness :
    (InsightsRequest.mk "Steel" []).suppliers = [] ∧
    ∃ errs, handleRequest ⟨"Steel", []⟩ .succeeds = (.validationError errs, 0) ∧
      errs ≠ [] :=
  ⟨rfl, validation_rejects_before_generation ⟨"Steel", []⟩ .succeeds (Or.inr (Or.inl rfl))⟩

/-! ### Field facts recovered from empty pydantic error lists -/

theorem nameErrors_eq_nil (n : String) (h : nameErrors n = []) : pyStrip n ≠ "" := by
  unfold nameErrors at h
  by_cases hn : n = ""
  · rw [if_pos hn] at h; cases h
  · rw [if_neg hn] at h
    by_cases hs : pyStrip n = ""
    · rw [if_pos hs] at h; cases h
    · exact hs

theorem spendErrors_eq_nil (q : Rat) (h : spendErrors q = []) : 0 < q := by
  unfold spendErrors at h
  by_cases hq : q ≤ 0
  · rw [if_pos hq] at h; cases h
  · exact not_le.mp hq

theorem pctErrors_eq_nil (q : Rat) (h : pctErrors q = []) : 0 ≤ q ∧ q ≤ 100 := by
  unfold pctErrors at h
  rw [List.append_eq_nil] at h
  obtain ⟨h1, h2⟩ := h
  constructor
  · by_cases hq : q < 0
    · rw [if_pos hq] at h1; cases h1
    · exact not_lt.mp hq
  · by_cases hq : 100 < q
    · rw [if_pos hq] at h2; cases h2
    · exact not_lt.mp hq

theorem expiryErrors_eq_nil (m : Int) (h : expiryErrors m = []) : 0 ≤ m := by
  unfold expiryErrors at h
  by_cases hm : m < 0
  · rw [if_pos hm] at h; cases h
  · exact not_lt.mp hm

theorem supplierErrorsIdx_eq_nil (i : Nat) (l : List SupplierInput)
    (h : supplierErrorsIdx i l = []) : ∀ s ∈ l, supplierFieldErrors s = [] := by
  induction l generalizing i with
  | nil => intro s hs; cases hs
  | cons a t ih =>
    intro s hs
    unfold supplierErrorsIdx at h
    rw [List.append_eq_nil] at h
    obtain ⟨hmap, htail⟩ := h
    rw [List.map_eq_nil_iff] at hmap
    rcases List.mem_cons.mp hs with rfl | hmem
    · exact hmap
    · exact ih (i + 1) htail s hmem

/-- The manual per-supplier checks pass on the stripped image of a
supplier list with no pydantic field errors. -/
theorem manualCheckSuppliers_map_none (i : Nat) (l : List SupplierInput)
    (h : ∀ s ∈ l, supplierFieldErrors s = []) :
    manualCheckSuppliers i (l.map stripSupplier) = none := by
  induction l generalizing i with
  | nil => rfl
  | cons a t ih =>
    have ha := h a (List.mem_cons_self a t)
    unfold supplierFieldErrors at ha
    rw [List.append_eq_nil, List.append_eq_nil, List.append_eq_nil,
      List.append_eq_nil] at ha
    obtain ⟨⟨⟨⟨h1, h2⟩, h3⟩, h4⟩, _⟩ := ha
    have hname := nameErrors_eq_nil _ h1
    have hspend := spendErrors_eq_nil _ h2
    have hpct := pctErrors_eq_nil _ h3
    have hexp := expiryErrors_eq_nil _ h4
    rw [List.map_cons]
    unfold manualCheckSuppliers
    rw [if_neg ?_, if_neg ?_, if_neg ?_, if_neg ?_]
    · exact ih (i + 1) (fun s hs => h s (List.mem_cons_of_mem a hs))
    · show ¬ (stripSupplier a).contract_expiry_months < 0
      exact not_lt.mpr hexp
    · show ¬¬ (0 ≤ (stripSupplier a).on_time_delivery_pct ∧
        (stripSupplier a).on_time_delivery_pct ≤ 100)
      exact not_not_intro ⟨hpct.1, hpct.2⟩
    · show ¬ (stripSupplier a).annual_spend_usd ≤ 0
      exact not_le.mpr hspend
    · show ¬ ((stripSupplier a).supplier_name = "" ∨
        pyStrip (stripSupplier a).supplier_name = "")
      have e1 : (stripSupplier a).supplier_name = pyStrip a.supplier_name := rfl
      rw [e1, pyStrip_idem]
      simp [hname]

/-- C10: once the pydantic model validation has accepted a request, every
manual per-supplier check in the handler passes. -/
theorem model_validation_implies_manual_pass (raw req : InsightsRequest)
    (h : validateRequest raw = .ok req) : manualCheck req = none := by
  unfold validateRequest at h
  by_cases hE : (categoryErrors raw.category ++ suppliersErrors raw.suppliers).isEmpty = true
  · rw [if_pos hE] at h
    have hreq : req = ⟨pyStrip raw.category, raw.suppliers.map stripSupplier⟩ :=
      (Except.ok.inj h).symm
    subst hreq
    have hnil : categoryErrors raw.category ++ suppliersErrors raw.suppliers = [] := by
      cases hl : categoryErrors raw.category ++ suppliersErrors raw.suppliers with
      | nil => rfl
      | cons x xs => rw [hl] at hE; cases hE
    rw [List.append_eq_nil] at hnil
    obtain ⟨_, hsup⟩ := hnil
    unfold suppliersErrors at hsup
    by_cases hemp : raw.suppliers.isEmpty = true
    · rw [if_pos hemp] at hsup; cases hsup
    · rw [if_neg hemp] at hsup
      have hfacts := supplierErrorsIdx_eq_nil 0 raw.suppliers hsup
      unfold manualCheck
      have hne : (raw.suppliers.map stripSupplier).isEmpty = false := by
        cases hl : raw.suppliers with
        | nil => rw [hl] at hemp; exact absurd rfl hemp
        | cons x xs => rfl
      rw [hne]
      exact manualCheckSuppliers_map_none 0 raw.suppliers hfacts
  · rw [if_neg hE] at h; cases h

/-- C10 witness: a well-formed request passes model validation unchanged
and then passes every manual check. -/
theorem model_validation_implies_manual_pass_witness :
    validateRequest ⟨"Steel", [⟨"Acme", 100, 95, 12, false, "EU"⟩]⟩ =
      .ok ⟨"Steel", [⟨"Acme", 100, 95, 12, false, "EU"⟩]⟩ ∧
    manualCheck ⟨"Steel", [⟨"Acme", 100, 95, 12, false, "EU"⟩]⟩ = none :=
  ⟨rfl, model_validation_implies_manual_pass
    ⟨"Steel", [⟨"Acme", 100, 95, 12, false, "EU"⟩]⟩
    ⟨"Steel", [⟨"Acme", 100, 95, 12, false, "EU"⟩]⟩ rfl⟩

/-! ### Repair is the identity on trimmed, fence-free JSON object text -/

theorem isPrefixOf_singleton (c : Char) (l : List Char)
    (h : List.isPrefixOf [c] l = true) : ∃ t, l = c :: t := by
  cases l with
  | nil => simp [List.isPrefixOf] at h
  | cons d t =>
    refine ⟨t, ?_⟩
    simp [List.isPrefixOf] at h
    rw [h]

theorem startsWith_brace_data (s : String) (h : pyStartsWith s "\x7b" = true) :
    ∃ t, s.data = '{' :: t := by
  unfold pyStartsWith at h
  exact isPrefixOf_singleton '{' s.data h

theorem endsWith_brace_rev (s : String) (h : pyEndsWith s "\x7d" = true) :
    ∃ t, s.data.reverse = '}' :: t := by
  unfold pyEndsWith at h
  unfold List.isSuffixOf at h
  exact isPrefixOf_singleton '}' s.data.reverse h

theorem no_fence_of_brace_start (s : String) (h : pyStartsWith s "\x7b" = true) :
    pyStartsWith s "```json" = false ∧ pyStartsWith s "```" = false := by
  obtain ⟨t, hd⟩ := startsWith_brace_data s h
  constructor
  · unfold pyStartsWith
    rw [hd]
    simp [List.isPrefixOf]
  · unfold pyStartsWith
    rw [hd]
    simp [List.isPrefixOf]

theorem no_trailing_fence_of_brace_end (s : String) (h : pyEndsWith s "\x7d" = true) :
    pyEndsWith s "```" = false := by
  obtain ⟨t, hr⟩ := endsWith_brace_rev s h
  unfold pyEndsWith List.isSuffixOf
  rw [hr]
  simp [List.isPrefixOf]

/-- C8: on trimmed text that starts with `{`, ends with `}` and carries no
code fences — in particular on valid minified JSON object text — the
repair pipeline is the identity, so repairing then parsing equals parsing
the original text directly. -/
theorem repair_identity_on_valid_json (s : String)
    (h1 : pyStrip s = s) (h2 : pyStartsWith s "\x7b" = true)
    (h3 : pyEndsWith s "\x7d" = true) :
    repairText s = s ∧ jsonParse (repairText s) = jsonParse s := by
  have htrunc : truncFix s = s := by
    unfold truncFix
    rw [h3]
    rfl
  obtain ⟨hsj, hs3⟩ := no_fence_of_brace_start s h2
  have he3 := no_trailing_fence_of_brace_end s h3
  have hclean : cleanJsonResponse s = s := by
    unfold cleanJsonResponse
    simp [h1, hsj, hs3, he3]
  have hrep : repairText s = s := by
    rw [repairText_eq, h1, htrunc, hclean]
  exact ⟨hrep, by rw [hrep]⟩

/-- C8 witness: a concrete minified JSON object is repaired to itself. -/
theorem repair_identity_on_valid_json_witness :
    (pyStrip "\x7b\"a\": 1, \"b\": [true]\x7d" = "\x7b\"a\": 1, \"b\": [true]\x7d" ∧
      pyStartsWith "\x7b\"a\": 1, \"b\": [true]\x7d" "\x7b" = true ∧
      pyEndsWith "\x7b\"a\": 1, \"b\": [true]\x7d" "\x7d" = true) ∧
    repairText "\x7b\"a\": 1, \"b\": [true]\x7d" = "\x7b\"a\": 1, \"b\": [true]\x7d" ∧
    jsonParse (repairText "\x7b\"a\": 1, \"b\": [true]\x7d") =
      jsonParse "\x7b\"a\": 1, \"b\": [true]\x7d" :=
  ⟨⟨rfl, rfl, rfl⟩,
    (repair_identity_on_valid_json "\x7b\"a\": 1, \"b\": [true]\x7d" rfl rfl rfl).1,
    (repair_identity_on_valid_json "\x7b\"a\": 1, \"b\": [true]\x7d" rfl rfl rfl).2⟩

/-- C9: the full prompt splits into constant text around the two request
interpolations, and the constant, request-independent part contains the
three-month high-priority threshold, the three-to-six-month medium
threshold, and the 0.85-base confidence rubric. -/
theorem prompt_constant_part_thresholds :
    (∀ category suppliersJson, buildFullPrompt category suppliersJson =
      buildSystemPrompt ++ "\n\n" ++
        (userPromptHead ++ category ++ userPromptMid ++ suppliersJson ++ userPromptTail)) ∧
    (∃ pre post, userPromptTail = pre ++
      ("\"High\" if single-source dependency exists OR contracts expiring within 3 months" ++
        post)) ∧
    (∃ pre post, userPromptTail = pre ++
      ("\"Medium\" if moderate concerns (contracts 3-6 months" ++ post)) ∧
    (∃ pre post, userPromptTail = pre ++ ("Start with base 0.85" ++ post)) := by
  refine ⟨fun category suppliersJson => rfl, ⟨userPromptTailA, _, rfl⟩, ?_, ?_⟩
  · refine ⟨userPromptTailA ++ needleHigh3Months ++ userPromptTailB,
      userPromptTailC ++ (needleBase085 ++ userPromptTailD), ?_⟩
    unfold userPromptTail
    simp [String.append_assoc]
    rfl
  · refine ⟨userPromptTailA ++ needleHigh3Months ++ userPromptTailB ++ needleMedium36 ++
      userPromptTailC, userPromptTailD, ?_⟩
    unfold userPromptTail
    simp [String.append_assoc]
    rfl

end Procurement

